import Mathlib

/-!
Shallow embedding of the H.Thon repository (multilingual medical-assistant
chat system) for checking its natural-language specification.

Embedded source files:
  * `src/brain/brain.py`   — namespace `Brain`
  * `src/brain/brain2.py`  — namespace `Brain2`
  * `src/google_TT.py`     — namespace `TT`
  * `src/google_att.py`    — namespace `ATT`
  * `src/unified_communication_bot.py` — namespace `Uni`

External collaborators (vector store, Ollama HTTP endpoint, Google
Translate, Whisper, gTTS) are modelled as oracle functions carried in
environment structures; an oracle returning `none` models the Python call
raising an exception (or, for the HTTP call, a timeout / non-200 status).
Python string values returned by the translation library are modelled as
`String`; a Python `None` return is conflated with the empty string, which
is behaviourally equivalent at every use site (both are falsy, and both
differ from any non-empty input).  Side effects that the claims speak about
(retrieval, LLM calls, translation, transcription, synthesis, persistence)
are made observable as explicit event traces.
-/

/-- Python `s.lower()` restricted to ASCII case mapping (all the red-flag
and keyword literals the code compares against are ASCII). -/
def pyLower (s : String) : String :=
  String.mk (s.data.map Char.toLower)

/-- Python `str.isascii()`: every code point is below 128 (true on `""`). -/
def pyIsAscii (s : String) : Bool :=
  s.data.all fun c => c.toNat < 128

/-- Whether the character list `p` is a prefix of `s` (helper for the
Python substring operator). -/
def isPrefixL : List Char → List Char → Bool
  | [], _ => true
  | _ :: _, [] => false
  | a :: p, b :: s => a == b && isPrefixL p s

/-- Whether the character list `p` occurs contiguously inside `s`. -/
def subL (p : List Char) : List Char → Bool
  | [] => p.isEmpty
  | b :: s => isPrefixL p (b :: s) || subL p s

/-- Python `sub in s` on strings: contiguous substring containment. -/
def pyIn (sub s : String) : Bool :=
  subL sub.data s.data

/-- A langchain document: page content plus its source-file metadata
(`doc.metadata.get('source', '')`). -/
structure Doc where
  page_content : String
  source : String
deriving Repr, DecidableEq

/-- Observable effects of the brain pipelines. -/
inductive BrainEv
  | retrieval
  | llmCall
  | translation
deriving Repr, DecidableEq

namespace Brain

/-- `red_flags` of `brain.py`. -/
def red_flags : List String :=
  ["chest pain", "bleeding", "breathless", "unconscious"]

/-- The fixed emergency message of `brain.py`. -/
def emergencyMsg : String :=
  "⚠️ EMERGENCY: This is a red flag. Contact your surgeon immediately."

/-- The no-database message of `brain.py`. -/
def noMemoryMsg : String :=
  "❌ ERROR: The AI has no memory. You must run the build function first."

/-- The empty-retrieval message of `brain.py`. -/
def noMatchMsg : String :=
  "🔍 No matching info found in the medical docs."

/-- External collaborators of `brain.py`: whether the persisted vector
store exists, the similarity search, and the Ollama LLM. -/
structure Env where
  dbExists : Bool
  search : String → Nat → List Doc
  llm : String → String

/-- `query_post_discharge_guardian` of `brain.py`, returning the response
together with the trace of external effects performed. -/
def query_post_discharge_guardian (env : Env) (user_query : String) :
    String × List BrainEv :=
  if red_flags.any (fun flag => pyIn flag (pyLower user_query)) then
    (emergencyMsg, [])
  else if env.dbExists = false then
    (noMemoryMsg, [])
  else
    let relevant_docs := env.search user_query 2
    if relevant_docs.isEmpty then
      (noMatchMsg, [BrainEv.retrieval])
    else
      let context := String.intercalate "\n\n" (relevant_docs.map (·.page_content))
      let prompt := "Answer based ONLY on context: " ++ context ++ "\nQuestion: " ++ user_query
      (env.llm prompt, [BrainEv.retrieval, BrainEv.llmCall])

end Brain

namespace Brain2

/-- `red_flags` of `brain2.py`. -/
def red_flags : List String :=
  ["chest pain", "bleeding", "breathless", "heartbeat", "fluttering"]

/-- The fixed emergency message of `brain2.py`. -/
def emergencyMsg : String :=
  "⚠️ EMERGENCY: This sounds critical. Please contact your doctor immediately."

/-- External collaborators of `brain2.py`: the global vector store handle
and the Ollama LLM (the embedding models the database-present case; with
`db = None` the Python code would raise on attribute access). -/
structure Env where
  search : String → Nat → List Doc
  llm : String → String

/-- Whether a chunk's stored source filename marks it as a
patient-specific fact: `"Portfolio" in source or "person" in source`. -/
def isPatientSource (source : String) : Bool :=
  pyIn "Portfolio" source || pyIn "person" source

/-- The bucketing loop of `brain2.py`: fold over the retrieved documents,
appending each page content to the patient-facts accumulator when its
source matches `isPatientSource`, and to the general-rules accumulator
otherwise. -/
def bucketDocs (docs : List Doc) : String × String :=
  docs.foldl
    (fun acc doc =>
      if isPatientSource doc.source then
        (acc.1 ++ ("\n" ++ doc.page_content), acc.2)
      else
        (acc.1, acc.2 ++ ("\n" ++ doc.page_content)))
    ("", "")

/-- Python `history[-1500:]`: the last `min (length, 1500)` characters. -/
def histWindow (history : String) : String :=
  String.mk (history.data.drop (history.length - 1500))

/-- The prompt text of `brain2.py` before the history slice. -/
def promptPre : String :=
  "\n    SYSTEM PERSONA: You are a Medical Guardian for Arthur Pendelton.\n    STRICT RULE: Only use the 'Patient Facts' for specific dates, medications, and history.\n    If 'Patient Facts' contradicts 'General Rules', Arthur's facts are the TRUTH.\n\n    [CONVERSATION HISTORY]\n    "

/-- The prompt text between the history slice and the patient facts. -/
def promptMid1 : String :=
  "\n\n    [PATIENT FACTS (ARTHUR'S PORTFOLIO)]\n    "

/-- The prompt text between the patient facts and the general rules. -/
def promptMid2 : String :=
  "\n\n    [GENERAL RECOVERY RULES]\n    "

/-- The prompt text between the general rules and the user question. -/
def promptMid3 : String :=
  "\n\n    USER QUESTION: "

/-- The prompt text after the user question. -/
def promptTail : String :=
  "\n    ASSISTANT RESPONSE (Be direct and fact-based):"

/-- The f-string prompt of `brain2.py`, assembled from its fixed sections,
the bounded history slice, the two buckets and the question. -/
def buildPrompt (user_query history patient_facts general_rules : String) : String :=
  promptPre ++ histWindow history ++ promptMid1 ++ patient_facts ++
    promptMid2 ++ general_rules ++ promptMid3 ++ user_query ++ promptTail

/-- `query_post_discharge_guardian` of `brain2.py`, returning the response
together with the trace of external effects performed. -/
def query_post_discharge_guardian (env : Env) (user_query history : String) :
    String × List BrainEv :=
  if red_flags.any (fun flag => pyIn flag (pyLower user_query)) then
    (emergencyMsg, [])
  else
    let relevant_docs := env.search user_query 5
    let buckets := bucketDocs relevant_docs
    (env.llm (buildPrompt user_query history buckets.1 buckets.2),
     [BrainEv.retrieval, BrainEv.llmCall])

end Brain2

/-- Observable steps of the text/audio pipelines of `google_TT.py` and
`unified_communication_bot.py`.  `safetyGate` is named so the spec's
claimed gate step can be stated; the embedded code decides whether it is
ever emitted. -/
inductive Ev
  | stt
  | detect
  | translateToEn
  | safetyGate
  | llmOrFallback
  | translateToMl
  | synth
  | persist
deriving Repr, DecidableEq

namespace TT

/-- The fixed Malayalam letter list of `detect_language` (identical in
`google_TT.py` and `google_att.py`). -/
def malayalam_chars : String :=
  "അആഇഈഉഊഋഎഏഐഒഓഔകഖഗഘങചഛജഝഞടഠഡഢണതഥദധനപഫബഭമയരലവശഷസഹളഴറ"

/-- External collaborators of `TextToTextBot`: the feature flag, the
Ollama HTTP endpoint (`none` = exception, timeout or non-200 status), the
two directional Google translators and the auto-detect translator
(`none` = exception). -/
structure Env where
  use_ollama : Bool
  ollamaHTTP : String → Option String
  trEnMl : String → Option String
  trMlEn : String → Option String
  autoTr : String → Option String

/-- `TextToTextBot.detect_language`: fixed-letter-list test, then ASCII
test, then auto-detect translation compared against the input, with tag
"en" on any failure. -/
def detect_language (env : Env) (text : String) : String :=
  if text.data.any (fun c => malayalam_chars.data.contains c) then "ml"
  else if pyIsAscii text then "en"
  else
    match env.autoTr text with
    | none => "en"
    | some detected => if detected ≠ text then "ml" else "en"

/-- `TextToTextBot.translate_to_malayalam`: delegate to the translator;
on exception, or on a falsy (`None`/empty) return, the original text. -/
def translate_to_malayalam (env : Env) (english_text : String) : String :=
  match env.trEnMl english_text with
  | none => english_text
  | some translated => if translated = "" then english_text else translated

/-- `TextToTextBot.translate_to_english`: delegate to the translator;
on exception, or on a falsy (`None`/empty) return, the original text. -/
def translate_to_english (env : Env) (malayalam_text : String) : String :=
  match env.trMlEn malayalam_text with
  | none => malayalam_text
  | some translated => if translated = "" then malayalam_text else translated

/-- The context-dependent prompt of `TextToTextBot.query_ollama`. -/
def ollamaPrompt (context english_text : String) : String :=
  if context = "medical" then
    "Medical query: " ++ english_text ++ "\n\nProvide a brief, helpful response:"
  else if context = "technical" then
    "Technical question: " ++ english_text ++ "\n\nProvide a clear explanation:"
  else
    "Question: " ++ english_text ++ "\n\nProvide a helpful response:"

/-- `TextToTextBot.query_ollama`: `none` when the feature flag is off and
on any HTTP failure (exception, timeout, non-200), else the response
field. -/
def query_ollama (env : Env) (english_text context : String) : Option String :=
  if env.use_ollama = false then none
  else env.ollamaHTTP (ollamaPrompt context english_text)

/-- The five canned fallback strings of `get_fallback_response`. -/
def fallbackResponses : List String :=
  ["I understand you're not feeling well. Please consult a healthcare provider for proper medical advice.",
   "Please consult a doctor or pharmacist about medications. They can provide proper guidance.",
   "For medical concerns, please consult a qualified healthcare professional.",
   "I'm here to help with technical questions. Could you provide more details about what you need help with?",
   "I'm here to help! Could you provide more details about your question?"]

/-- `TextToTextBot.get_fallback_response`: canned response selected by
context tag and keyword match on the lowercased query. -/
def get_fallback_response (english_query context : String) : String :=
  let query_lower := pyLower english_query
  if context = "medical" then
    if ["fever", "pain", "sick", "ill"].any (fun word => pyIn word query_lower) then
      "I understand you're not feeling well. Please consult a healthcare provider for proper medical advice."
    else if ["medicine", "drug", "medication"].any (fun word => pyIn word query_lower) then
      "Please consult a doctor or pharmacist about medications. They can provide proper guidance."
    else
      "For medical concerns, please consult a qualified healthcare professional."
  else if context = "technical" then
    "I'm here to help with technical questions. Could you provide more details about what you need help with?"
  else
    "I'm here to help! Could you provide more details about your question?"

/-- The conversation-result record built by `process_text` (the wall-clock
timestamp field is omitted from the embedding). -/
structure Result where
  success : Bool
  user_input : String
  user_language : String
  english_query : String
  ai_response_english : String
  final_response : String
  response_language : String
  context : String
deriving Repr, DecidableEq

/-- `TextToTextBot.process_text`: detect language, translate to English if
Malayalam, query the backend or fall back, translate the response to
Malayalam if requested; paired with the trace of pipeline steps. -/
def process_text (env : Env) (user_input context : String)
    (respond_in_malayalam : Bool) : Result × List Ev :=
  let user_language := detect_language env user_input
  let step2 :=
    if user_language = "ml" then
      (translate_to_english env user_input, [Ev.translateToEn])
    else
      (user_input, [])
  let english_query := step2.1
  let ai_response0 := query_ollama env english_query context
  let ai_response :=
    match ai_response0 with
    | none => get_fallback_response english_query context
    | some r => r
  let step4 :=
    if respond_in_malayalam then
      (translate_to_malayalam env ai_response, [Ev.translateToMl])
    else
      (ai_response, [])
  ({ success := true
     user_input := user_input
     user_language := user_language
     english_query := english_query
     ai_response_english := ai_response
     final_response := step4.1
     response_language := if respond_in_malayalam then "ml" else "en"
     context := context },
   [Ev.detect] ++ step2.2 ++ [Ev.llmOrFallback] ++ step4.2)

end TT

namespace ATT

/-- `BidirectionalMalayalamBot.detect_language` of `google_att.py`: the
fixed-letter-list test alone, with no ASCII case and no auto-detect
fallback. -/
def detect_language (text : String) : String :=
  if text.data.any (fun c => TT.malayalam_chars.data.contains c) then "ml" else "en"

/-- `BidirectionalMalayalamBot.translate_to_malayalam`: delegate to the
translator, returning its value unchecked; on exception the original
text. -/
def translate_to_malayalam (tr : String → Option String) (english_text : String) : String :=
  match tr english_text with
  | none => english_text
  | some translated => translated

/-- `BidirectionalMalayalamBot.translate_to_english`: delegate to the
translator, returning its value unchecked; on exception the original
text. -/
def translate_to_english (tr : String → Option String) (malayalam_text : String) : String :=
  match tr malayalam_text with
  | none => malayalam_text
  | some translated => translated

end ATT

namespace Uni

/-- Subsystem availability and external collaborators of
`UnifiedCommunicationBot`: the import flags, the text bot's environment,
Whisper transcription (`none` = failure; only the text field is used),
gTTS synthesis and conversation persistence. -/
structure Env where
  textAvail : Bool
  audioAvail : Bool
  tt : TT.Env
  transcribe : String → Option String
  genAudio : String → Option String
  saveConv : TT.Result → Option String

/-- The result dict of `UnifiedCommunicationBot.communicate` (absent keys
are `none`; the timestamp field is omitted from the embedding). -/
structure CommResult where
  success : Bool := false
  input_type : String
  output_type : String
  error : Option String := none
  warning : Option String := none
  audio_input : Option String := none
  user_input : Option String := none
  text_response : Option String := none
  conversation_details : Option TT.Result := none
  audio_response : Option String := none
  saved_file : Option String := none
deriving Repr, DecidableEq

/-- Steps 2-4 of `communicate` once a text input is in hand: process with
the text bot (respond_in_malayalam is hard-coded to true), optionally
synthesize audio, optionally persist. -/
def communicateAfterText (env : Env) (base : CommResult) (pre : List Ev)
    (text_input output_type context : String) (save_conversation : Bool) :
    CommResult × List Ev :=
  let base1 : CommResult := { base with user_input := some text_input }
  if env.textAvail = false then
    ({ base1 with error := some "Text processing not available" }, pre)
  else
    let pt := TT.process_text env.tt text_input context true
    let text_result := pt.1
    let evs := pre ++ pt.2
    if text_result.success = false then
      ({ base1 with error := some "Text processing failed" }, evs)
    else
      let response_text := text_result.final_response
      let base2 : CommResult :=
        { base1 with text_response := some response_text
                     conversation_details := some text_result }
      let step3 :=
        if output_type = "audio" ∨ output_type = "both" then
          if env.audioAvail = false then
            ({ base2 with warning := some "Audio output not available, returning text only" },
             evs)
          else
            match env.genAudio response_text with
            | some audio_file =>
                ({ base2 with audio_response := some audio_file }, evs ++ [Ev.synth])
            | none =>
                ({ base2 with warning := some "Audio generation failed" }, evs ++ [Ev.synth])
        else (base2, evs)
      let step4 :=
        if save_conversation && env.textAvail then
          ({ step3.1 with saved_file := env.saveConv text_result }, step3.2 ++ [Ev.persist])
        else step3
      ({ step4.1 with success := true }, step4.2)

/-- `UnifiedCommunicationBot.communicate`: convert the input to text
(transcribing audio when requested and available), then hand over to the
text pipeline; paired with the trace of pipeline steps. -/
def communicate (env : Env) (input_data input_type output_type context : String)
    (save_conversation : Bool) : CommResult × List Ev :=
  let base : CommResult := { input_type := input_type, output_type := output_type }
  if input_type = "audio" then
    if env.audioAvail = false then
      ({ base with error := some "Audio input not available" }, [])
    else
      match env.transcribe input_data with
      | none => ({ base with error := some "Audio transcription failed" }, [Ev.stt])
      | some text_input =>
          communicateAfterText env { base with audio_input := some input_data } [Ev.stt]
            text_input output_type context save_conversation
  else
    communicateAfterText env base [] input_data output_type context save_conversation

end Uni

/-- The spec's words, for comparison with the code: membership of a
character in the Malayalam Unicode block (U+0D00 to U+0D7F).  The code's
`malayalam_chars` list is a strict subset of this block. -/
def specMalayalamBlock (c : Char) : Bool :=
  0x0D00 ≤ c.toNat && c.toNat ≤ 0x0D7F

/-- A concrete text-bot environment in which every external call fails and
the Ollama flag is off. -/
def ttUnavailable : TT.Env :=
  { use_ollama := false
    ollamaHTTP := fun _ => none
    trEnMl := fun _ => none
    trMlEn := fun _ => none
    autoTr := fun _ => none }

/-- A concrete text-bot environment whose auto-detect translation succeeds
and returns a fixed English string (different from any one-character
input). -/
def ttAutoSucc : TT.Env :=
  { use_ollama := false
    ollamaHTTP := fun _ => none
    trEnMl := fun _ => none
    trMlEn := fun _ => none
    autoTr := fun _ => some "translated text" }

/-- A concrete unified-bot environment with both subsystems loaded and
every external call failing. -/
def uniDefault : Uni.Env :=
  { textAvail := true
    audioAvail := true
    tt := ttUnavailable
    transcribe := fun _ => none
    genAudio := fun _ => none
    saveConv := fun _ => none }

/-- A concrete unified-bot environment whose audio subsystem failed to
import. -/
def uniNoAudio : Uni.Env :=
  { textAvail := true
    audioAvail := false
    tt := ttUnavailable
    transcribe := fun _ => none
    genAudio := fun _ => none
    saveConv := fun _ => none }

/-- C1: whenever the (lowercased) input contains one of the module's
red-flag phrases, `query_post_discharge_guardian` returns the module's
fixed emergency message and performs no retrieval, no translation and no
LLM call (empty effect trace), for any state of the external
collaborators, in both `brain.py` and `brain2.py`. -/
theorem c1_safety_gate_short_circuits (env1 : Brain.Env) (env2 : Brain2.Env)
    (q1 q2 history : String)
    (h1 : Brain.red_flags.any (fun flag => pyIn flag (pyLower q1)) = true)
    (h2 : Brain2.red_flags.any (fun flag => pyIn flag (pyLower q2)) = true) :
    Brain.query_post_discharge_guardian env1 q1 = (Brain.emergencyMsg, []) ∧
    Brain2.query_post_discharge_guardian env2 q2 history = (Brain2.emergencyMsg, []) := by
  constructor
  · unfold Brain.query_post_discharge_guardian
    rw [if_pos h1]
  · unfold Brain2.query_post_discharge_guardian
    rw [if_pos h2]

/-- Witness for C1: on the concrete input "I have Chest Pain" (matching
"chest pain" only case-insensitively) both brain modules return their
fixed emergency message with an empty effect trace. -/
theorem c1_safety_gate_short_circuits_witness :
    Brain.query_post_discharge_guardian
        ⟨true, fun _ _ => [], fun _ => "llm"⟩ "I have Chest Pain" =
      (Brain.emergencyMsg, []) ∧
    Brain2.query_post_discharge_guardian
        ⟨fun _ _ => [], fun _ => "llm"⟩ "I have Chest Pain" "history" =
      (Brain2.emergencyMsg, []) :=
  c1_safety_gate_short_circuits ⟨true, fun _ _ => [], fun _ => "llm"⟩
    ⟨fun _ _ => [], fun _ => "llm"⟩ "I have Chest Pain" "I have Chest Pain" "history"
    (by decide) (by decide)

/-- Projection of a packed dropped character list (stated over a general
`n` so that instantiating it avoids unfolding a numeral subtraction). -/
theorem mk_drop_data (l : List Char) (n : Nat) : (String.mk (l.drop n)).data = l.drop n := rfl

/-- `String.join` shifted by an accumulator: folding append over a list of
strings starting from `a` prepends `a` to the join. -/
theorem string_foldl_append (l : List String) :
    ∀ a : String, l.foldl (· ++ ·) a = a ++ String.join l := by
  induction l with
  | nil => intro a; simp [String.join, String.append_empty]
  | cons s t ih =>
    intro a
    simp only [List.foldl_cons]
    rw [ih]
    have h : String.join (s :: t) = s ++ String.join t := by
      show (s :: t).foldl (· ++ ·) "" = _
      simp only [List.foldl_cons]
      rw [ih, String.empty_append]
    rw [h, String.append_assoc]

/-- `String.join` distributes over `cons`. -/
theorem string_join_cons (s : String) (l : List String) :
    String.join (s :: l) = s ++ String.join l := by
  show (s :: l).foldl (· ++ ·) "" = _
  simp only [List.foldl_cons]
  rw [string_foldl_append, String.empty_append]

/-- The bucketing fold of `brain2.py` with an arbitrary accumulator: the
patient-facts accumulator collects exactly the matching chunks, the
general-rules accumulator exactly the others, in retrieval order. -/
theorem bucketDocs_fold_eq (docs : List Doc) :
    ∀ a b : String,
      docs.foldl
        (fun acc doc =>
          if Brain2.isPatientSource doc.source then
            (acc.1 ++ ("\n" ++ doc.page_content), acc.2)
          else
            (acc.1, acc.2 ++ ("\n" ++ doc.page_content)))
        (a, b) =
      (a ++ String.join ((docs.filter fun d => Brain2.isPatientSource d.source).map
          fun d => "\n" ++ d.page_content),
       b ++ String.join ((docs.filter fun d => !Brain2.isPatientSource d.source).map
          fun d => "\n" ++ d.page_content)) := by
  induction docs with
  | nil => intro a b; simp [String.join, String.append_empty]
  | cons d ds ih =>
    intro a b
    cases h : Brain2.isPatientSource d.source with
    | true =>
      simp only [List.foldl_cons, h, if_true, List.filter_cons, Bool.not_true,
        Bool.false_eq_true, if_false, List.map_cons, string_join_cons]
      rw [ih, String.append_assoc]
    | false =>
      simp only [List.foldl_cons, h, Bool.false_eq_true, if_false, List.filter_cons,
        Bool.not_false, if_true, List.map_cons, string_join_cons]
      rw [ih, String.append_assoc]

/-- C7: the bucketing of `brain2.py`'s `query_post_discharge_guardian`
partitions the retrieved chunks: the patient-facts section is exactly the
concatenation (each prefixed by a newline) of the page contents of the
chunks whose stored source filename contains "Portfolio" or "person", and
the general-rules section exactly that of all the other chunks — so every
chunk lands in exactly one bucket, decided by `isPatientSource`. -/
theorem c7_bucket_partition (docs : List Doc) :
    Brain2.bucketDocs docs =
      (String.join ((docs.filter fun d => Brain2.isPatientSource d.source).map
          fun d => "\n" ++ d.page_content),
       String.join ((docs.filter fun d => !Brain2.isPatientSource d.source).map
          fun d => "\n" ++ d.page_content)) := by
  unfold Brain2.bucketDocs
  rw [bucketDocs_fold_eq]
  rw [String.empty_append, String.empty_append]

/-- C8: the conversation-history section of the prompt built by
`brain2.py`'s `query_post_discharge_guardian` is exactly the trailing
slice of the history bounded to 1500 characters: its length is
`min (length history) 1500`, never exceeds 1500, it is a suffix of the
history, and the prompt is the fixed sections around it. -/
theorem c8_history_budget (user_query history patient_facts general_rules : String) :
    (Brain2.histWindow history).length = min history.length 1500 ∧
    (Brain2.histWindow history).length ≤ 1500 ∧
    (Brain2.histWindow history).data <:+ history.data ∧
    Brain2.buildPrompt user_query history patient_facts general_rules =
      Brain2.promptPre ++ Brain2.histWindow history ++ Brain2.promptMid1 ++
        patient_facts ++ Brain2.promptMid2 ++ general_rules ++ Brain2.promptMid3 ++
        user_query ++ Brain2.promptTail := by
  have hlen : (Brain2.histWindow history).length = min history.length 1500 := by
    show (history.data.drop (history.length - 1500)).length = min history.length 1500
    rw [List.length_drop]
    have h : history.length = history.data.length := rfl
    omega
  refine ⟨hlen, ?_, ?_, rfl⟩
  · rw [hlen]; omega
  · unfold Brain2.histWindow
    rw [mk_drop_data]
    exact List.drop_suffix _ _

/-- The result record of `process_text` always carries `success := true`
(definitional: the single return site sets it). -/
theorem process_text_success (env : TT.Env) (t c : String) (r : Bool) :
    (TT.process_text env t c r).1.success = true := rfl

/-- The step trace of `process_text` in closed form: detect, then
translate-to-English exactly when Malayalam was detected, then the
LLM-or-fallback step, then translate-to-Malayalam exactly when
requested. -/
theorem process_text_trace (env : TT.Env) (t c : String) (r : Bool) :
    (TT.process_text env t c r).2 =
      [Ev.detect] ++ (if TT.detect_language env t = "ml" then [Ev.translateToEn] else []) ++
        [Ev.llmOrFallback] ++ (if r then [Ev.translateToMl] else []) := by
  unfold TT.process_text
  by_cases h1 : TT.detect_language env t = "ml" <;> by_cases h2 : r <;> simp [h1, h2]

/-- The step trace of the post-transcription phase of `communicate` in
closed form, when the text subsystem is loaded: the text-bot steps, then
synthesis exactly when audio output was requested and available, then
persistence exactly when requested. -/
theorem afterText_trace (env : Uni.Env) (base : Uni.CommResult) (pre : List Ev)
    (t ot c : String) (save : Bool) (ht : env.textAvail = true) :
    (Uni.communicateAfterText env base pre t ot c save).2 =
      pre ++ (TT.process_text env.tt t c true).2 ++
        (if (ot = "audio" ∨ ot = "both") ∧ env.audioAvail = true then [Ev.synth] else []) ++
        (if save then [Ev.persist] else []) := by
  simp only [Uni.communicateAfterText, process_text_success, ht]
  by_cases ho : (ot = "audio" ∨ ot = "both")
  · by_cases ha : env.audioAvail = true
    · cases hg : env.genAudio ((TT.process_text env.tt t c true).1.final_response) with
      | none => by_cases hsave : save <;> simp [ho, ha, hg, hsave, List.append_assoc]
      | some f => by_cases hsave : save <;> simp [ho, ha, hg, hsave, List.append_assoc]
    · by_cases hsave : save <;> simp [ho, ha, hsave, List.append_assoc]
  · by_cases hsave : save <;> simp [ho, hsave, List.append_assoc]

/-- The post-transcription phase of `communicate` can never report the
"Text processing failed" error when handed a base record without an
error: its guard tests a field that `process_text` always sets to
true. -/
theorem afterText_error_ne (env : Uni.Env) (base : Uni.CommResult) (pre : List Ev)
    (t ot c : String) (save : Bool) (hbase : base.error = none) :
    (Uni.communicateAfterText env base pre t ot c save).1.error ≠
      some "Text processing failed" := by
  simp only [Uni.communicateAfterText, process_text_success]
  by_cases ht : env.textAvail = false
  · simp [ht]
  · by_cases ho : (ot = "audio" ∨ ot = "both")
    · by_cases ha : env.audioAvail = false
      · by_cases hsave : save = true <;> simp [ht, ho, ha, hsave, hbase]
      · cases hg : env.genAudio ((TT.process_text env.tt t c true).1.final_response) with
        | none => by_cases hsave : save = true <;> simp [ht, ho, ha, hg, hsave, hbase]
        | some f => by_cases hsave : save = true <;> simp [ht, ho, ha, hg, hsave, hbase]
    · by_cases hsave : save = true <;> simp [ht, ho, hsave, hbase]

/-- When the text subsystem is loaded, the post-transcription phase of
`communicate` always sets `text_response` to the text bot's final
response. -/
theorem afterText_text_response (env : Uni.Env) (base : Uni.CommResult) (pre : List Ev)
    (t ot c : String) (save : Bool) (ht : env.textAvail = true) :
    (Uni.communicateAfterText env base pre t ot c save).1.text_response =
      some ((TT.process_text env.tt t c true).1.final_response) := by
  simp only [Uni.communicateAfterText, process_text_success, ht]
  by_cases ho : (ot = "audio" ∨ ot = "both")
  · by_cases ha : env.audioAvail = true
    · cases hg : env.genAudio ((TT.process_text env.tt t c true).1.final_response) with
      | none => by_cases hsave : save <;> simp [ho, ha, hg, hsave]
      | some f => by_cases hsave : save <;> simp [ho, ha, hg, hsave]
    · by_cases hsave : save <;> simp [ho, ha, hsave]
  · by_cases hsave : save <;> simp [ho, hsave]

/-- Every letter in the fixed Malayalam list has a code point of at least
128, so no ASCII character is in the list. -/
theorem mal_chars_nonascii :
    TT.malayalam_chars.data.all (fun c => 128 ≤ c.toNat) = true := by decide

/-- The fallback responder always answers with one of the five canned
strings. -/
theorem get_fallback_mem (english_query context : String) :
    TT.get_fallback_response english_query context ∈ TT.fallbackResponses := by
  simp only [TT.get_fallback_response, TT.fallbackResponses]
  split_ifs <;> simp

/-- The fallback responder never answers with the empty string. -/
theorem get_fallback_ne (english_query context : String) :
    TT.get_fallback_response english_query context ≠ "" := by
  simp only [TT.get_fallback_response]
  split_ifs <;> decide

/-- Translating a non-empty string towards Malayalam yields a non-empty
string: on failure or a falsy return the non-empty input, otherwise the
non-empty translation. -/
theorem translate_ml_ne (env : TT.Env) (s : String) (h : s ≠ "") :
    TT.translate_to_malayalam env s ≠ "" := by
  unfold TT.translate_to_malayalam
  cases henv : env.trEnMl s with
  | none => exact h
  | some v => by_cases hv : v = "" <;> simp [hv, h]

/-- The backend query returns `none` whenever the feature flag is off or
every HTTP call fails. -/
theorem query_ollama_none (env : TT.Env) (english_text context : String)
    (h : env.use_ollama = false ∨ ∀ p, env.ollamaHTTP p = none) :
    TT.query_ollama env english_text context = none := by
  unfold TT.query_ollama
  rcases h with h | h
  · rw [if_pos h]
  · by_cases hf : env.use_ollama = false
    · rw [if_pos hf]
    · rw [if_neg hf]; exact h _

/-- With the backend unavailable, `process_text` answers with the
fallback response for its English query, and its final response is
non-empty. -/
theorem process_text_fallback (env : TT.Env) (t c : String) (r : Bool)
    (h : env.use_ollama = false ∨ ∀ p, env.ollamaHTTP p = none) :
    (TT.process_text env t c r).1.ai_response_english =
      TT.get_fallback_response (TT.process_text env t c r).1.english_query c ∧
    (TT.process_text env t c r).1.final_response ≠ "" := by
  unfold TT.process_text
  by_cases h1 : TT.detect_language env t = "ml" <;> by_cases h2 : r = true <;>
    simp [h1, h2, query_ollama_none env _ c h] <;>
    first
      | exact translate_ml_ne env _ (get_fallback_ne _ _)
      | exact get_fallback_ne _ _

/-- C2 counterexample: on the concrete red-flag input "I have chest pain"
the facade `communicate` performs its LLM-or-fallback step without any
safety-gate step ever running — the claimed gate step does not exist in
this pipeline. -/
theorem c2_no_safety_gate_counterexample :
    Ev.safetyGate ∉ (Uni.communicate uniDefault "I have chest pain" "text" "text" "medical" false).2 ∧
    Ev.llmOrFallback ∈ (Uni.communicate uniDefault "I have chest pain" "text" "text" "medical" false).2 := by
  decide

/-- C2 (amended): `communicate` runs its steps in the fixed order
speech-to-text (if needed) → language detect → translate-to-English (if
needed) → LLM-or-fallback → translate-to-target → speech synthesis (if
requested and available) → optional persistence, with no safety-gate
step anywhere. -/
theorem c2_amended_step_order (env : Uni.Env) (input_data output_type context : String)
    (save : Bool) (htext : env.textAvail = true) :
    ((Uni.communicate env input_data "text" output_type context save).2 =
      [Ev.detect] ++
        (if TT.detect_language env.tt input_data = "ml" then [Ev.translateToEn] else []) ++
        [Ev.llmOrFallback] ++ [Ev.translateToMl] ++
        (if (output_type = "audio" ∨ output_type = "both") ∧ env.audioAvail = true then
          [Ev.synth] else []) ++
        (if save then [Ev.persist] else [])) ∧
    (∀ text_input, env.audioAvail = true → env.transcribe input_data = some text_input →
      (Uni.communicate env input_data "audio" output_type context save).2 =
        [Ev.stt] ++ [Ev.detect] ++
          (if TT.detect_language env.tt text_input = "ml" then [Ev.translateToEn] else []) ++
          [Ev.llmOrFallback] ++ [Ev.translateToMl] ++
          (if (output_type = "audio" ∨ output_type = "both") ∧ env.audioAvail = true then
            [Ev.synth] else []) ++
          (if save then [Ev.persist] else [])) := by
  constructor
  · simp only [Uni.communicate]
    rw [if_neg (by decide)]
    rw [afterText_trace env _ [] input_data output_type context save htext, process_text_trace]
    simp [List.append_assoc]
  · intro text_input ha htr
    simp only [Uni.communicate]
    rw [if_pos trivial, if_neg (by simp [ha]), htr]
    simp only []
    rw [afterText_trace env _ [Ev.stt] text_input output_type context save htext,
      process_text_trace]
    simp [List.append_assoc]

/-- Witness for C2 (amended): the trace of a concrete text-to-text call
against the failing-backend environment. -/
theorem c2_amended_step_order_witness :
    (Uni.communicate uniDefault "hello" "text" "text" "general" false).2 =
      [Ev.detect] ++
        (if TT.detect_language uniDefault.tt "hello" = "ml" then [Ev.translateToEn] else []) ++
        [Ev.llmOrFallback] ++ [Ev.translateToMl] ++
        (if ("text" = "audio" ∨ "text" = "both") ∧ uniDefault.audioAvail = true then
          [Ev.synth] else []) ++
        (if false then [Ev.persist] else []) :=
  (c2_amended_step_order uniDefault "hello" "text" "general" false rfl).1

/-- C3 counterexample: the chillu letter "ൻ" (U+0D7B) lies in the
Malayalam Unicode block, yet `detect_language` classifies the input as
English when the auto-detect call fails, because the letter is not in the
code's fixed list. -/
theorem c3_block_detect_counterexample :
    ("ൻ".data.any fun c => specMalayalamBlock c) = true ∧
    TT.detect_language ttUnavailable "ൻ" = "en" := by decide

/-- C3 (amended): `detect_language` returns "ml" for every input with at
least one character from the module's fixed Malayalam letter list,
returns "en" for every pure-ASCII input, and otherwise consults the
auto-detect translation, comparing its output to the input and
defaulting to "en" on failure. -/
theorem c3_amended_detect_language (env : TT.Env) (text : String) :
    (text.data.any (fun c => TT.malayalam_chars.data.contains c) = true →
      TT.detect_language env text = "ml") ∧
    (pyIsAscii text = true → TT.detect_language env text = "en") ∧
    (text.data.any (fun c => TT.malayalam_chars.data.contains c) = false →
      pyIsAscii text = false →
      (env.autoTr text = none → TT.detect_language env text = "en") ∧
      (∀ detected, env.autoTr text = some detected →
        TT.detect_language env text = if detected ≠ text then "ml" else "en")) := by
  refine ⟨?_, ?_, ?_⟩
  · intro h
    unfold TT.detect_language
    rw [if_pos h]
  · intro h
    have hno : ¬ (text.data.any (fun c => TT.malayalam_chars.data.contains c) = true) := by
      intro hc
      obtain ⟨c, hmem, hcon⟩ := List.any_eq_true.mp hc
      have hlt : c.toNat < 128 := by
        have := List.all_eq_true.mp h c hmem
        exact of_decide_eq_true this
      have hge : 128 ≤ c.toNat := by
        have hmem2 : c ∈ TT.malayalam_chars.data :=
          List.mem_of_elem_eq_true hcon
        have := List.all_eq_true.mp mal_chars_nonascii c hmem2
        exact of_decide_eq_true this
      omega
    unfold TT.detect_language
    rw [if_neg hno, if_pos h]
  · intro h1 h2
    simp only [TT.detect_language, h1, h2, Bool.false_eq_true, if_false]
    constructor
    · intro h3; simp [h3]
    · intro detected h4; simp [h4]

/-- C4: when the underlying translation call raises, each directional
translation operation returns the original input unchanged, in both the
text bot and the audio bot. -/
theorem c4_translation_fail_open (env : TT.Env) (tr : String → Option String)
    (text : String) (h1 : env.trEnMl text = none) (h2 : env.trMlEn text = none)
    (h3 : tr text = none) :
    TT.translate_to_malayalam env text = text ∧
    TT.translate_to_english env text = text ∧
    ATT.translate_to_malayalam tr text = text ∧
    ATT.translate_to_english tr text = text := by
  unfold TT.translate_to_malayalam TT.translate_to_english ATT.translate_to_malayalam
    ATT.translate_to_english
  rw [h1, h2, h3]
  exact ⟨rfl, rfl, rfl, rfl⟩

/-- Witness for C4: with every translator failing, all four operations
return the concrete input "hello" unchanged. -/
theorem c4_translation_fail_open_witness :
    TT.translate_to_malayalam ttUnavailable "hello" = "hello" ∧
    TT.translate_to_english ttUnavailable "hello" = "hello" ∧
    ATT.translate_to_malayalam (fun _ => none) "hello" = "hello" ∧
    ATT.translate_to_english (fun _ => none) "hello" = "hello" :=
  c4_translation_fail_open ttUnavailable (fun _ => none) "hello" rfl rfl rfl

/-- C5: whenever the LLM backend is unavailable (flag off, or every HTTP
call raising, timing out or returning non-200), `process_text` still
succeeds, its English response is the fallback for its English query,
that response is one of the fixed fallback strings, its final response is
non-empty, and `communicate` consequently returns a non-null, non-empty
text response. -/
theorem c5_fallback_guarantees (env : TT.Env) (user_input context output_type : String)
    (respond_in_malayalam save : Bool)
    (h : env.use_ollama = false ∨ ∀ p, env.ollamaHTTP p = none) :
    (TT.process_text env user_input context respond_in_malayalam).1.success = true ∧
    (TT.process_text env user_input context respond_in_malayalam).1.ai_response_english =
      TT.get_fallback_response
        (TT.process_text env user_input context respond_in_malayalam).1.english_query context ∧
    (TT.process_text env user_input context respond_in_malayalam).1.ai_response_english ∈
      TT.fallbackResponses ∧
    (TT.process_text env user_input context respond_in_malayalam).1.final_response ≠ "" ∧
    (∀ uenv : Uni.Env, uenv.tt = env → uenv.textAvail = true →
      ∃ s, (Uni.communicate uenv user_input "text" output_type context save).1.text_response =
            some s ∧ s ≠ "") := by
  obtain ⟨hai, hfin⟩ := process_text_fallback env user_input context respond_in_malayalam h
  refine ⟨rfl, hai, ?_, hfin, ?_⟩
  · rw [hai]; exact get_fallback_mem _ _
  · intro uenv he ht
    refine ⟨(TT.process_text uenv.tt user_input context true).1.final_response, ?_, ?_⟩
    · simp only [Uni.communicate]
      rw [if_neg (by decide)]
      exact afterText_text_response uenv _ [] user_input output_type context save ht
    · rw [he]
      exact (process_text_fallback env user_input context true h).2

/-- Witness for C5: the concrete medical query "I have a fever" against
the failing-backend environment. -/
theorem c5_fallback_guarantees_witness :
    (TT.process_text ttUnavailable "I have a fever" "medical" true).1.success = true ∧
    (TT.process_text ttUnavailable "I have a fever" "medical" true).1.ai_response_english =
      TT.get_fallback_response
        (TT.process_text ttUnavailable "I have a fever" "medical" true).1.english_query
        "medical" ∧
    (TT.process_text ttUnavailable "I have a fever" "medical" true).1.ai_response_english ∈
      TT.fallbackResponses ∧
    (TT.process_text ttUnavailable "I have a fever" "medical" true).1.final_response ≠ "" ∧
    (∀ uenv : Uni.Env, uenv.tt = ttUnavailable → uenv.textAvail = true →
      ∃ s, (Uni.communicate uenv "I have a fever" "text" "text" "medical" false).1.text_response =
            some s ∧ s ≠ "") :=
  c5_fallback_guarantees ttUnavailable "I have a fever" "medical" "text" true false (Or.inl rfl)

/-- C6: when audio input is requested while the audio subsystem is
unavailable, `communicate` returns a record with `success = false` and an
error field, and performs no transcription, text processing or synthesis
(empty step trace). -/
theorem c6_audio_input_unavailable (env : Uni.Env) (input_data output_type context : String)
    (save : Bool) (h : env.audioAvail = false) :
    (Uni.communicate env input_data "audio" output_type context save).1.success = false ∧
    (Uni.communicate env input_data "audio" output_type context save).1.error =
      some "Audio input not available" ∧
    (Uni.communicate env input_data "audio" output_type context save).2 = [] := by
  simp only [Uni.communicate]
  rw [if_pos trivial, if_pos h]
  exact ⟨rfl, rfl, rfl⟩

/-- Witness for C6: a concrete audio request against the environment
whose audio subsystem failed to import. -/
theorem c6_audio_input_unavailable_witness :
    (Uni.communicate uniNoAudio "question.mp3" "audio" "text" "general" false).1.success = false ∧
    (Uni.communicate uniNoAudio "question.mp3" "audio" "text" "general" false).1.error =
      some "Audio input not available" ∧
    (Uni.communicate uniNoAudio "question.mp3" "audio" "text" "general" false).2 = [] :=
  c6_audio_input_unavailable uniNoAudio "question.mp3" "text" "general" false rfl

/-- C9: `process_text` returns `success = true` on every input, so the
callers' branches handling a false `success` — in particular the
"Text processing failed" error path of `communicate` — are
unreachable. -/
theorem c9_process_text_always_succeeds (env : TT.Env) (user_input context : String)
    (respond_in_malayalam : Bool) (uenv : Uni.Env)
    (input_data input_type output_type uctx : String) (save : Bool) :
    (TT.process_text env user_input context respond_in_malayalam).1.success = true ∧
    (Uni.communicate uenv input_data input_type output_type uctx save).1.error ≠
      some "Text processing failed" := by
  refine ⟨rfl, ?_⟩
  simp only [Uni.communicate]
  by_cases hit : input_type = "audio"
  · rw [if_pos hit]
    by_cases ha : uenv.audioAvail = false
    · rw [if_pos ha]; simp
    · rw [if_neg ha]
      cases htr : uenv.transcribe input_data with
      | none => simp
      | some text_input => exact afterText_error_ne _ _ _ _ _ _ _ rfl
  · rw [if_neg hit]
    exact afterText_error_ne _ _ _ _ _ _ _ rfl

/-- C10: the audio bot's `detect_language` is total and two-valued,
returning "ml" exactly when the input has a character from the fixed
Malayalam letter list and "en" for every other input — including
non-ASCII text in another script ("Привет") and a Malayalam-block
character outside the list ("ൻ", U+0D7B) — and on such an input it can
diverge from the text bot's `detect_language`, whose auto-detect fallback
classifies "ൻ" as "ml" when the translation call succeeds. -/
theorem c10_att_detect_two_valued :
    (∀ text : String, ATT.detect_language text = "ml" ∨ ATT.detect_language text = "en") ∧
    (∀ text : String, ATT.detect_language text = "ml" ↔
      (text.data.any fun c => TT.malayalam_chars.data.contains c) = true) ∧
    ATT.detect_language "Привет" = "en" ∧
    ATT.detect_language "ൻ" = "en" ∧
    ("ൻ".data.any fun c => specMalayalamBlock c) = true ∧
    TT.detect_language ttAutoSucc "ൻ" = "ml" ∧
    ATT.detect_language "ൻ" ≠ TT.detect_language ttAutoSucc "ൻ" := by
  refine ⟨?_, ?_, by decide, by decide, by decide, by decide, by decide⟩
  · intro text
    unfold ATT.detect_language
    by_cases h : (text.data.any fun c => TT.malayalam_chars.data.contains c) = true
    · rw [if_pos h]; left; rfl
    · rw [if_neg h]; right; rfl
  · intro text
    unfold ATT.detect_language
    by_cases h : (text.data.any fun c => TT.malayalam_chars.data.contains c) = true
    · rw [if_pos h]; exact iff_of_true rfl h
    · rw [if_neg h]; exact iff_of_false (by decide) h
